import Mathlib

/-
Verification of the signing core of the near-api-js signers package
(src/packages/signers/src/key_pair_signer.ts), shallowly embedded in Lean.

Bytes are modelled as `List Nat` (each entry a byte value). External
capabilities that the signer consumes (the canonical transaction and
delegate-action encoders, the SHA-256 hash, the raw signing primitive of the
key pair) are passed as explicit function parameters, so every theorem below
quantifies over them unless the claim pins their behaviour.
-/

namespace Near

/-- Key algorithm tag, from the crypto package: Ed25519 or Secp256k1. -/
inductive KeyType where
  | ED25519
  | SECP256K1
deriving DecidableEq

/-- Modelled from the spec: a PublicKey from the crypto package (not under
src/) is a tagged union over the key algorithm, each variant carrying its raw
bytes; two public keys are equal iff algorithm tag and raw bytes match. -/
structure PublicKey where
  keyType : KeyType
  data : List Nat
deriving DecidableEq

/-- Modelled from the spec: the algorithm name that leads the canonical
string encoding of a public key, as bytes. -/
def KeyType.encodingBytes : KeyType → List Nat
  | .ED25519 => [101, 100, 50, 53, 53, 49, 57]
  | .SECP256K1 => [115, 101, 99, 112, 50, 53, 54, 107, 49]

/-- Modelled from the spec: the canonical string encoding of a public key
from the crypto package (not under src/): the algorithm name, a colon
(byte 58), then an injective encoding of the raw key bytes (base58 in the
implementation, modelled here as the raw bytes themselves). -/
def PublicKey.toString (pk : PublicKey) : List Nat :=
  pk.keyType.encodingBytes ++ 58 :: pk.data

/-- Modelled from the spec: the crypto package PublicKey exposes its raw key
through the ed25519Key field exactly when the algorithm tag is Ed25519. -/
def PublicKey.ed25519Key (pk : PublicKey) : Option (List Nat) :=
  match pk.keyType with
  | .ED25519 => some pk.data
  | .SECP256K1 => none

/-- A key pair: its public key, and the raw signing primitive over bytes
(an external capability; deterministic function of the input bytes). -/
structure KeyPair where
  publicKey : PublicKey
  signBytes : List Nat → List Nat

/-- A signature: algorithm tag plus raw signature bytes
(from the transactions package). -/
structure Signature where
  keyType : KeyType
  data : List Nat
deriving DecidableEq

/-- An action inside a transaction; its internal structure is irrelevant to
the signer, which only ever passes it to the external encoder. -/
structure Action where
  bytes : List Nat
deriving DecidableEq

/-- An unsigned transaction, from the transactions package: sender, declared
public key, nonce, receiver, actions, recent-block-hash anchor. -/
structure Transaction where
  signerId : List Nat
  publicKey : PublicKey
  nonce : Nat
  receiverId : List Nat
  actions : List Action
  blockHash : List Nat
deriving DecidableEq

/-- A signed transaction: the original transaction paired with a signature. -/
structure SignedTransaction where
  transaction : Transaction
  signature : Signature
deriving DecidableEq

/-- An unsigned delegate action, from the transactions package. -/
structure DelegateAction where
  senderId : List Nat
  receiverId : List Nat
  actions : List Action
  nonce : Nat
  maxBlockHeight : Nat
  publicKey : PublicKey
deriving DecidableEq

/-- A signed delegate: the original delegate action paired with a signature. -/
structure SignedDelegate where
  delegateAction : DelegateAction
  signature : Signature
deriving DecidableEq

/-- The two error paths of the signing core. In the source both are thrown
as Error values with fixed messages: the key-mismatch message for a declared
key that differs from the held key, and the invalid-nonce message for a
nonce that is not exactly 32 bytes. -/
inductive SignError where
  | keyMismatch
  | invalidNonce
deriving DecidableEq

/-- KeyPairSigner.signTransaction from key_pair_signer.ts, with the external
encoder and hash passed explicitly: compare the declared public key with the
held key by canonical string encoding; on mismatch throw the key-mismatch
error; otherwise hash the canonical encoding, sign the hash, and wrap the
original transaction with a signature whose tag is Ed25519 when the
transaction key has an ed25519Key field and Secp256k1 otherwise. -/
def KeyPairSigner.signTransaction
    (encodeTransaction : Transaction → List Nat) (sha256 : List Nat → List Nat)
    (key : KeyPair) (transaction : Transaction) :
    Except SignError (List Nat × SignedTransaction) :=
  let pk := key.publicKey
  if transaction.publicKey.toString ≠ pk.toString then
    .error .keyMismatch
  else
    let message := encodeTransaction transaction
    let hash := sha256 message
    let signature := key.signBytes hash
    .ok (hash,
      { transaction := transaction
        signature :=
          { keyType :=
              match transaction.publicKey.ed25519Key with
              | some _ => KeyType.ED25519
              | none => KeyType.SECP256K1
            data := signature } })

/-- KeyPairSigner.signDelegateAction from key_pair_signer.ts, with the
external encoder and hash passed explicitly: same key-match guard, hash the
canonical encoding, sign the hash, and wrap the original delegate action
with a signature whose tag is the held public key of the signer. -/
def KeyPairSigner.signDelegateAction
    (encodeDelegateAction : DelegateAction → List Nat) (sha256 : List Nat → List Nat)
    (key : KeyPair) (delegateAction : DelegateAction) :
    Except SignError (List Nat × SignedDelegate) :=
  let pk := key.publicKey
  if delegateAction.publicKey.toString ≠ pk.toString then
    .error .keyMismatch
  else
    let message := encodeDelegateAction delegateAction
    let hash := sha256 message
    let signature := key.signBytes hash
    .ok (hash,
      { delegateAction := delegateAction
        signature :=
          { keyType := pk.keyType
            data := signature } })

/-- Borsh fixed-width little-endian serialization of a u32, as used by the
serialize call on the u32 schema. -/
def borshU32LE (n : Nat) : List Nat :=
  [n % 256, n / 256 % 256, n / 65536 % 256, n / 16777216 % 256]

/-- SignMessageParams from signer.ts: message text, 32-byte nonce, recipient
text, optional callback URL. Text fields are modelled by their UTF-8 bytes. -/
structure SignMessageParams where
  message : List Nat
  nonce : List Nat
  recipient : List Nat
  callbackUrl : Option (List Nat)
deriving DecidableEq

/-- Modelled from the spec: Borsh length-prefixed text, a u32 little-endian
byte length followed by the bytes. -/
def borshText (s : List Nat) : List Nat := borshU32LE s.length ++ s

/-- Modelled from the spec: Borsh optional text, a presence flag byte
followed by the length-prefixed text when present. -/
def borshOptionText : Option (List Nat) → List Nat
  | none => [0]
  | some s => 1 :: borshText s

/-- Modelled from the spec: serialization of SignMessageParams under the
Nep413MessageSchema of signer.ts (not under src/), field order message
(length-prefixed text), nonce (raw 32 bytes, fixed-size array so no length),
recipient (length-prefixed text), callbackUrl (optional text). -/
def serializeNep413Message (p : SignMessageParams) : List Nat :=
  borshText p.message ++ p.nonce ++ borshText p.recipient ++
    borshOptionText p.callbackUrl

/-- getPayloadHashForNEP413 from key_pair_signer.ts, with the external hash
passed explicitly: reject a nonce that is not exactly 32 bytes, otherwise
hash the concatenation of the serialized u32 domain tag 2147484061 and the
serialized params. -/
def getPayloadHashForNEP413 (sha256 : List Nat → List Nat)
    (params : SignMessageParams) : Except SignError (List Nat) :=
  if params.nonce.length ≠ 32 then
    .error .invalidNonce
  else
    .ok (sha256 (borshU32LE 2147484061 ++ serializeNep413Message params))

/-- Example Ed25519 public key used by the concrete witnesses. -/
def pk0 : PublicKey := ⟨KeyType.ED25519, [1, 2, 3]⟩

/-- Example public key that differs from pk0. -/
def pkOther : PublicKey := ⟨KeyType.SECP256K1, [4, 5]⟩

/-- Example key pair holding pk0, with a concrete signing primitive. -/
def key0 : KeyPair := ⟨pk0, fun l => 200 :: l⟩

/-- Example transaction declaring pk0. -/
def tx0 : Transaction :=
  ⟨[115, 97], pk0, 1, [114, 98], [⟨[3]⟩], List.replicate 32 0⟩

/-- Example transaction declaring a key different from pk0. -/
def txOther : Transaction := { tx0 with publicKey := pkOther }

/-- Example delegate action declaring pk0. -/
def da0 : DelegateAction := ⟨[115, 97], [114, 98], [⟨[3]⟩], 1, 50, pk0⟩

/-- Example delegate action declaring a key different from pk0. -/
def daOther : DelegateAction := { da0 with publicKey := pkOther }

/-- Example message params with a 32-byte nonce. -/
def msgParams0 : SignMessageParams :=
  ⟨[104, 105], List.replicate 32 7, [114, 99], none⟩

/-- The same message params written as a record, byte for byte. -/
def msgParams0Copy : SignMessageParams :=
  { message := [104, 105]
    nonce := List.replicate 32 7
    recipient := [114, 99]
    callbackUrl := none }

/-- Example message params whose nonce is not 32 bytes. -/
def badNonceParams : SignMessageParams := ⟨[104], [1, 2, 3], [114], none⟩

/-- Equal canonical string encodings force equal algorithm tags: the
encoding starts with the algorithm name, and the two names differ in their
first byte. -/
theorem toString_eq_keyType {p q : PublicKey}
    (h : p.toString = q.toString) : p.keyType = q.keyType := by
  cases p with
  | mk pt pd =>
    cases q with
    | mk qt qd =>
      cases pt <;> cases qt <;>
        simp_all [PublicKey.toString, KeyType.encodingBytes]

/-- The tag computed from the ed25519Key field is the key algorithm. -/
theorem ed25519Key_tag (pk : PublicKey) :
    (match pk.ed25519Key with
      | some _ => KeyType.ED25519
      | none => KeyType.SECP256K1) = pk.keyType := by
  cases pk with
  | mk t d => cases t <;> rfl

/-- Forward evaluation of signTransaction under a matching key. -/
theorem signTransaction_eq_ok
    (encodeTransaction : Transaction → List Nat) (sha256 : List Nat → List Nat)
    (key : KeyPair) (tx : Transaction)
    (h : tx.publicKey.toString = key.publicKey.toString) :
    KeyPairSigner.signTransaction encodeTransaction sha256 key tx =
      .ok (sha256 (encodeTransaction tx),
        { transaction := tx
          signature :=
            { keyType :=
                match tx.publicKey.ed25519Key with
                | some _ => KeyType.ED25519
                | none => KeyType.SECP256K1
              data := key.signBytes (sha256 (encodeTransaction tx)) } }) := by
  simp [KeyPairSigner.signTransaction, h]

/-- Forward evaluation of signDelegateAction under a matching key. -/
theorem signDelegateAction_eq_ok
    (encodeDelegateAction : DelegateAction → List Nat)
    (sha256 : List Nat → List Nat)
    (key : KeyPair) (da : DelegateAction)
    (h : da.publicKey.toString = key.publicKey.toString) :
    KeyPairSigner.signDelegateAction encodeDelegateAction sha256 key da =
      .ok (sha256 (encodeDelegateAction da),
        { delegateAction := da
          signature :=
            { keyType := key.publicKey.keyType
              data := key.signBytes (sha256 (encodeDelegateAction da)) } }) := by
  simp [KeyPairSigner.signDelegateAction, h]

/-- Inversion of a successful signTransaction call. -/
theorem signTransaction_ok_inv
    (encodeTransaction : Transaction → List Nat) (sha256 : List Nat → List Nat)
    (key : KeyPair) (tx : Transaction) (d : List Nat) (st : SignedTransaction)
    (h : KeyPairSigner.signTransaction encodeTransaction sha256 key tx =
      .ok (d, st)) :
    tx.publicKey.toString = key.publicKey.toString ∧
    d = sha256 (encodeTransaction tx) ∧
    st = { transaction := tx
           signature :=
             { keyType :=
                 match tx.publicKey.ed25519Key with
                 | some _ => KeyType.ED25519
                 | none => KeyType.SECP256K1
               data := key.signBytes (sha256 (encodeTransaction tx)) } } := by
  by_cases hg : tx.publicKey.toString = key.publicKey.toString
  · rw [signTransaction_eq_ok encodeTransaction sha256 key tx hg] at h
    simp only [Except.ok.injEq, Prod.mk.injEq] at h
    exact ⟨hg, h.1.symm, h.2.symm⟩
  · simp [KeyPairSigner.signTransaction, hg] at h

/-- Inversion of a successful signDelegateAction call. -/
theorem signDelegateAction_ok_inv
    (encodeDelegateAction : DelegateAction → List Nat)
    (sha256 : List Nat → List Nat)
    (key : KeyPair) (da : DelegateAction) (d : List Nat) (sd : SignedDelegate)
    (h : KeyPairSigner.signDelegateAction encodeDelegateAction sha256 key da =
      .ok (d, sd)) :
    da.publicKey.toString = key.publicKey.toString ∧
    d = sha256 (encodeDelegateAction da) ∧
    sd = { delegateAction := da
           signature :=
             { keyType := key.publicKey.keyType
               data := key.signBytes (sha256 (encodeDelegateAction da)) } } := by
  by_cases hg : da.publicKey.toString = key.publicKey.toString
  · rw [signDelegateAction_eq_ok encodeDelegateAction sha256 key da hg] at h
    simp only [Except.ok.injEq, Prod.mk.injEq] at h
    exact ⟨hg, h.1.symm, h.2.symm⟩
  · simp [KeyPairSigner.signDelegateAction, hg] at h

/-- C1: for every SignMessageParams whose nonce is exactly 32 bytes,
getPayloadHashForNEP413 returns the digest of the byte sequence formed by
the fixed u32 domain tag 2147484061 (equal to 2 ^ 31 + 413) serialized in
little-endian 4-byte form, followed by the Borsh serialization of the
params (message, nonce, recipient, optional callbackUrl), in that order. -/
theorem nep413_hash_is_tagged_serialization (sha256 : List Nat → List Nat)
    (p : SignMessageParams) (h : p.nonce.length = 32) :
    getPayloadHashForNEP413 sha256 p =
      .ok (sha256 ([157, 1, 0, 128] ++
        (borshText p.message ++ p.nonce ++ borshText p.recipient ++
          borshOptionText p.callbackUrl))) ∧
    borshU32LE (2 ^ 31 + 413) = [157, 1, 0, 128] ∧
    (2 ^ 31 + 413 : Nat) = 2147484061 := by
  refine ⟨?_, by decide, by decide⟩
  simp [getPayloadHashForNEP413, h, serializeNep413Message]
  rfl

/-- Witness for C1 at concrete params, with the hash instantiated to the
identity so the returned payload is visible. -/
theorem nep413_hash_is_tagged_serialization_witness :
    msgParams0.nonce.length = 32 ∧
    (getPayloadHashForNEP413 (fun l => l) msgParams0 =
      .ok ((fun l => l) ([157, 1, 0, 128] ++
        (borshText msgParams0.message ++ msgParams0.nonce ++
          borshText msgParams0.recipient ++
          borshOptionText msgParams0.callbackUrl))) ∧
      borshU32LE (2 ^ 31 + 413) = [157, 1, 0, 128] ∧
      (2 ^ 31 + 413 : Nat) = 2147484061) :=
  ⟨by decide,
   nep413_hash_is_tagged_serialization (fun l => l) msgParams0 (by decide)⟩

/-- C3: a nonce whose length is not 32 makes getPayloadHashForNEP413 fail
with the invalid-nonce error for every hash function (so no hash is ever
computed), and a 32-byte nonce never raises this error. -/
theorem nep413_nonce_validation (p : SignMessageParams) :
    (p.nonce.length ≠ 32 →
      ∀ sha256 : List Nat → List Nat,
        getPayloadHashForNEP413 sha256 p = .error .invalidNonce) ∧
    (p.nonce.length = 32 →
      ∀ sha256 : List Nat → List Nat,
        ∃ d, getPayloadHashForNEP413 sha256 p = .ok d) := by
  constructor
  · intro h sha256
    simp [getPayloadHashForNEP413, h]
  · intro h sha256
    refine ⟨sha256 (borshU32LE 2147484061 ++ serializeNep413Message p), ?_⟩
    simp [getPayloadHashForNEP413, h]

/-- Witness for C3: a 3-byte nonce is rejected, a 32-byte nonce is not. -/
theorem nep413_nonce_validation_witness :
    getPayloadHashForNEP413 (fun l => l) badNonceParams =
      .error .invalidNonce ∧
    ∃ d, getPayloadHashForNEP413 (fun l => l) msgParams0 = .ok d :=
  ⟨(nep413_nonce_validation badNonceParams).1 (by decide) (fun l => l),
   (nep413_nonce_validation msgParams0).2 (by decide) (fun l => l)⟩

/-- C8: getPayloadHashForNEP413 is deterministic: two params carrying the
same message bytes, nonce bytes, recipient bytes and callbackUrl yield
identical results under the same hash function. -/
theorem nep413_deterministic (sha256 : List Nat → List Nat)
    (p1 p2 : SignMessageParams)
    (hm : p1.message = p2.message) (hn : p1.nonce = p2.nonce)
    (hr : p1.recipient = p2.recipient)
    (hc : p1.callbackUrl = p2.callbackUrl) :
    getPayloadHashForNEP413 sha256 p1 = getPayloadHashForNEP413 sha256 p2 := by
  cases p1
  cases p2
  simp_all

/-- Witness for C8 at two byte-identical concrete params. -/
theorem nep413_deterministic_witness :
    getPayloadHashForNEP413 (fun l => l) msgParams0 =
      getPayloadHashForNEP413 (fun l => l) msgParams0Copy :=
  nep413_deterministic (fun l => l) msgParams0 msgParams0Copy
    (by decide) (by decide) (by decide) (by decide)

/-- C2: when the declared public key string encoding differs from that of
the signer key, signTransaction and signDelegateAction fail with the
key-mismatch error for every encoder, every hash function and every signing
primitive, so no encoding, hashing or signing is performed and the key pair
sign operation is never invoked. -/
theorem sign_key_mismatch_rejected (pk : PublicKey)
    (tx : Transaction) (da : DelegateAction)
    (htx : tx.publicKey.toString ≠ pk.toString)
    (hda : da.publicKey.toString ≠ pk.toString) :
    (∀ (signFn : List Nat → List Nat)
        (encodeTransaction : Transaction → List Nat)
        (sha256 : List Nat → List Nat),
      KeyPairSigner.signTransaction encodeTransaction sha256 ⟨pk, signFn⟩ tx =
        .error .keyMismatch) ∧
    (∀ (signFn : List Nat → List Nat)
        (encodeDelegateAction : DelegateAction → List Nat)
        (sha256 : List Nat → List Nat),
      KeyPairSigner.signDelegateAction encodeDelegateAction sha256
          ⟨pk, signFn⟩ da =
        .error .keyMismatch) := by
  constructor
  · intro signFn e s
    simp [KeyPairSigner.signTransaction, htx]
  · intro signFn e s
    simp [KeyPairSigner.signDelegateAction, hda]

/-- Witness for C2 at a concrete mismatched key. -/
theorem sign_key_mismatch_rejected_witness :
    KeyPairSigner.signTransaction (fun _ => [5]) (fun l => 9 :: l)
        ⟨pk0, fun l => 200 :: l⟩ txOther =
      .error .keyMismatch ∧
    KeyPairSigner.signDelegateAction (fun _ => [6]) (fun l => 9 :: l)
        ⟨pk0, fun l => 200 :: l⟩ daOther =
      .error .keyMismatch :=
  ⟨(sign_key_mismatch_rejected pk0 txOther daOther (by decide) (by decide)).1
      (fun l => 200 :: l) (fun _ => [5]) (fun l => 9 :: l),
   (sign_key_mismatch_rejected pk0 txOther daOther (by decide) (by decide)).2
      (fun l => 200 :: l) (fun _ => [6]) (fun l => 9 :: l)⟩

/-- C4: when the declared key matches the signer key, signTransaction
returns the hash of the canonical encoding of the transaction as the
digest, together with a SignedTransaction wrapping the original transaction
and a Signature whose data is the held key signature over that digest. -/
theorem signTransaction_success
    (encodeTransaction : Transaction → List Nat) (sha256 : List Nat → List Nat)
    (key : KeyPair) (tx : Transaction)
    (h : tx.publicKey.toString = key.publicKey.toString) :
    ∃ st : SignedTransaction,
      KeyPairSigner.signTransaction encodeTransaction sha256 key tx =
        .ok (sha256 (encodeTransaction tx), st) ∧
      st.transaction = tx ∧
      st.signature.data = key.signBytes (sha256 (encodeTransaction tx)) :=
  ⟨_, signTransaction_eq_ok encodeTransaction sha256 key tx h, rfl, rfl⟩

/-- Witness for C4 at a concrete matching key. -/
theorem signTransaction_success_witness :
    ∃ st : SignedTransaction,
      KeyPairSigner.signTransaction (fun _ => [5]) (fun l => 9 :: l) key0 tx0 =
        .ok ([9, 5], st) ∧
      st.transaction = tx0 ∧
      st.signature.data = key0.signBytes [9, 5] :=
  signTransaction_success (fun _ => [5]) (fun l => 9 :: l) key0 tx0 (by decide)

/-- C5: when the declared key matches, the payload signed by the key pair
in signDelegateAction is the hash of the canonical encoding of the delegate
action, and that same hash is returned as the digest result. -/
theorem signDelegateAction_success
    (encodeDelegateAction : DelegateAction → List Nat)
    (sha256 : List Nat → List Nat)
    (key : KeyPair) (da : DelegateAction)
    (h : da.publicKey.toString = key.publicKey.toString) :
    ∃ sd : SignedDelegate,
      KeyPairSigner.signDelegateAction encodeDelegateAction sha256 key da =
        .ok (sha256 (encodeDelegateAction da), sd) ∧
      sd.delegateAction = da ∧
      sd.signature.data = key.signBytes (sha256 (encodeDelegateAction da)) :=
  ⟨_, signDelegateAction_eq_ok encodeDelegateAction sha256 key da h, rfl, rfl⟩

/-- Witness for C5 at a concrete matching key. -/
theorem signDelegateAction_success_witness :
    ∃ sd : SignedDelegate,
      KeyPairSigner.signDelegateAction (fun _ => [6]) (fun l => 9 :: l)
          key0 da0 =
        .ok ([9, 6], sd) ∧
      sd.delegateAction = da0 ∧
      sd.signature.data = key0.signBytes [9, 6] :=
  signDelegateAction_success (fun _ => [6]) (fun l => 9 :: l) key0 da0
    (by decide)

/-- C6: on success the signature key-type tag of signTransaction is the
algorithm of the transaction declared public key (Ed25519 exactly when the
declared key carries an ed25519Key field), a function of the transaction
alone and not recomputed from the held key pair. -/
theorem signTransaction_tag_from_declared_key
    (encodeTransaction : Transaction → List Nat) (sha256 : List Nat → List Nat)
    (key : KeyPair) (tx : Transaction) (d : List Nat) (st : SignedTransaction)
    (h : KeyPairSigner.signTransaction encodeTransaction sha256 key tx =
      .ok (d, st)) :
    st.signature.keyType = tx.publicKey.keyType := by
  obtain ⟨-, -, hst⟩ :=
    signTransaction_ok_inv encodeTransaction sha256 key tx d st h
  subst hst
  exact ed25519Key_tag tx.publicKey

/-- Witness for C6 at a concrete successful call. -/
theorem signTransaction_tag_from_declared_key_witness :
    (⟨tx0, ⟨KeyType.ED25519, [200, 9, 5]⟩⟩ :
        SignedTransaction).signature.keyType = tx0.publicKey.keyType :=
  signTransaction_tag_from_declared_key (fun _ => [5]) (fun l => 9 :: l)
    key0 tx0 [9, 5] ⟨tx0, ⟨KeyType.ED25519, [200, 9, 5]⟩⟩ (by rfl)

/-- C7: on success the signature key-type tag of signDelegateAction is the
algorithm of the signer own public key, not read from the delegate action
declared public key. -/
theorem signDelegateAction_tag_from_signer
    (encodeDelegateAction : DelegateAction → List Nat)
    (sha256 : List Nat → List Nat)
    (key : KeyPair) (da : DelegateAction) (d : List Nat) (sd : SignedDelegate)
    (h : KeyPairSigner.signDelegateAction encodeDelegateAction sha256 key da =
      .ok (d, sd)) :
    sd.signature.keyType = key.publicKey.keyType := by
  obtain ⟨-, -, hsd⟩ :=
    signDelegateAction_ok_inv encodeDelegateAction sha256 key da d sd h
  subst hsd
  rfl

/-- Witness for C7 at a concrete successful call. -/
theorem signDelegateAction_tag_from_signer_witness :
    (⟨da0, ⟨KeyType.ED25519, [200, 9, 6]⟩⟩ :
        SignedDelegate).signature.keyType = key0.publicKey.keyType :=
  signDelegateAction_tag_from_signer (fun _ => [6]) (fun l => 9 :: l)
    key0 da0 [9, 6] ⟨da0, ⟨KeyType.ED25519, [200, 9, 6]⟩⟩ (by rfl)

/-- C9: the signing calls never change their input entity: on success the
returned SignedTransaction holds the original transaction unmodified and
the returned SignedDelegate holds the original delegate action unmodified
(both calls are pure functions of immutable values). -/
theorem sign_preserves_input
    (encodeTransaction : Transaction → List Nat)
    (encodeDelegateAction : DelegateAction → List Nat)
    (sha256 : List Nat → List Nat) (key : KeyPair)
    (tx : Transaction) (da : DelegateAction) :
    (∀ (d : List Nat) (st : SignedTransaction),
      KeyPairSigner.signTransaction encodeTransaction sha256 key tx =
        .ok (d, st) →
      st.transaction = tx) ∧
    (∀ (d : List Nat) (sd : SignedDelegate),
      KeyPairSigner.signDelegateAction encodeDelegateAction sha256 key da =
        .ok (d, sd) →
      sd.delegateAction = da) := by
  constructor
  · intro d st h
    obtain ⟨-, -, hst⟩ :=
      signTransaction_ok_inv encodeTransaction sha256 key tx d st h
    subst hst
    rfl
  · intro d sd h
    obtain ⟨-, -, hsd⟩ :=
      signDelegateAction_ok_inv encodeDelegateAction sha256 key da d sd h
    subst hsd
    rfl

/-- Witness for C9 at concrete successful calls. -/
theorem sign_preserves_input_witness :
    (⟨tx0, ⟨KeyType.ED25519, [200, 9, 5]⟩⟩ :
        SignedTransaction).transaction = tx0 ∧
    (⟨da0, ⟨KeyType.ED25519, [200, 9, 6]⟩⟩ :
        SignedDelegate).delegateAction = da0 :=
  ⟨(sign_preserves_input (fun _ => [5]) (fun _ => [6]) (fun l => 9 :: l)
        key0 tx0 da0).1
      [9, 5] ⟨tx0, ⟨KeyType.ED25519, [200, 9, 5]⟩⟩ (by rfl),
   (sign_preserves_input (fun _ => [5]) (fun _ => [6]) (fun l => 9 :: l)
        key0 tx0 da0).2
      [9, 6] ⟨da0, ⟨KeyType.ED25519, [200, 9, 6]⟩⟩ (by rfl)⟩

/-- C10: whenever signTransaction or signDelegateAction succeeds, the
signature key-type tag equals the algorithm of the signer own held public
key: the key-match guard forces the two string encodings, hence the two
algorithms, to coincide, so the asymmetry in how the tag is sourced is
unobservable in successful results. -/
theorem sign_success_tag_matches_signer
    (encodeTransaction : Transaction → List Nat)
    (encodeDelegateAction : DelegateAction → List Nat)
    (sha256 : List Nat → List Nat) (key : KeyPair)
    (tx : Transaction) (da : DelegateAction) :
    (∀ (d : List Nat) (st : SignedTransaction),
      KeyPairSigner.signTransaction encodeTransaction sha256 key tx =
        .ok (d, st) →
      st.signature.keyType = key.publicKey.keyType) ∧
    (∀ (d : List Nat) (sd : SignedDelegate),
      KeyPairSigner.signDelegateAction encodeDelegateAction sha256 key da =
        .ok (d, sd) →
      sd.signature.keyType = key.publicKey.keyType) := by
  constructor
  · intro d st h
    obtain ⟨hg, -, hst⟩ :=
      signTransaction_ok_inv encodeTransaction sha256 key tx d st h
    subst hst
    show (match tx.publicKey.ed25519Key with
          | some _ => KeyType.ED25519
          | none => KeyType.SECP256K1) = key.publicKey.keyType
    rw [ed25519Key_tag tx.publicKey]
    exact toString_eq_keyType hg
  · intro d sd h
    obtain ⟨-, -, hsd⟩ :=
      signDelegateAction_ok_inv encodeDelegateAction sha256 key da d sd h
    subst hsd
    rfl

/-- Witness for C10 at concrete successful calls. -/
theorem sign_success_tag_matches_signer_witness :
    (⟨tx0, ⟨KeyType.ED25519, [200, 9, 5]⟩⟩ :
        SignedTransaction).signature.keyType = key0.publicKey.keyType ∧
    (⟨da0, ⟨KeyType.ED25519, [200, 9, 6]⟩⟩ :
        SignedDelegate).signature.keyType = key0.publicKey.keyType :=
  ⟨(sign_success_tag_matches_signer (fun _ => [5]) (fun _ => [6])
        (fun l => 9 :: l) key0 tx0 da0).1
      [9, 5] ⟨tx0, ⟨KeyType.ED25519, [200, 9, 5]⟩⟩ (by rfl),
   (sign_success_tag_matches_signer (fun _ => [5]) (fun _ => [6])
        (fun l => 9 :: l) key0 tx0 da0).2
      [9, 6] ⟨da0, ⟨KeyType.ED25519, [200, 9, 6]⟩⟩ (by rfl)⟩

end Near
